import Mathlib

/-!
# SecureAgentMessaging: a shallow embedding of the TCP keepalive protocol core

This file embeds the connection-lifecycle and liveness subsystem of the
repository (server in `src/index.ts`, client in `src/unnamed/part_000`,
a TypeScript/Node.js program) and proves or refutes the frozen claims
about it.

Modelling conventions:
* JavaScript numbers used as millisecond timestamps are modelled as `Int`
  (all arithmetic on them in the source is integral).
* `JSON.parse` / `JSON.stringify` are modelled by an executable JSON value
  type with a parser and a printer.  The parser covers the JSON fragment the
  program actually exchanges (objects, arrays, unescaped strings, integer
  numbers, `true`/`false`/`null`, surrounding whitespace) and — like the real
  `JSON.parse` — accepts exactly one JSON value per call, rejecting any
  non-whitespace trailing input.  String escape sequences and non-integer
  numbers are not produced by the program and are rejected by the model.
* Mutable `ConnectionInfo` objects are shared between the server's `Map`
  and the timer closures created in `startKeepAlive`; the embedding makes
  this sharing explicit with a heap of objects addressed by `ObjId`, the
  `Map` storing object ids.
* `setInterval` registrations are recorded in a list of active timers; a
  timer firing is modelled by `fireTimer`, which is a no-op for a cleared
  timer id (a cancelled interval never fires again in Node.js).
* Socket writes, `socket.destroy()` and `socket.end()` calls are recorded
  in logs so that "exactly one reply" / "exactly one close" claims can be
  stated as facts about those logs.
-/

/-- JSON values, the model of what `JSON.parse` returns and `JSON.stringify`
consumes.  Numbers are restricted to integers (the program only ever
serializes integral values). -/
inductive Json where
  | null : Json
  | bool (b : Bool) : Json
  | num (n : Int) : Json
  | str (s : String) : Json
  | arr (elems : List Json) : Json
  | obj (fields : List (String × Json)) : Json

/-- JSON whitespace. -/
def isJsonWs (c : Char) : Bool :=
  c == ' ' || c == '\n' || c == '\t' || c == '\r'

/-- Drop leading JSON whitespace. -/
def skipWs : List Char → List Char
  | [] => []
  | c :: cs => if isJsonWs c then skipWs cs else c :: cs

/-- Parse the body of a JSON string after the opening quote, up to the
closing quote.  Escape sequences (backslash) are rejected: the program never
produces them. -/
def parseStrBody : List Char → Option (String × List Char)
  | [] => none
  | c :: cs =>
    if c == '"' then some ("", cs)
    else if c == '\\' then none
    else match parseStrBody cs with
      | some (s, rest) => some (String.mk (c :: s.data), rest)
      | none => none

/-- Accumulate leading decimal digits into a natural number. -/
def parseDigitsAux : Nat → List Char → Nat × List Char
  | acc, [] => (acc, [])
  | acc, c :: cs =>
    if c.isDigit then parseDigitsAux (acc * 10 + (c.toNat - '0'.toNat)) cs
    else (acc, c :: cs)

/-- Parse a JSON number (an optionally negated digit run; fractions and
exponents are never produced by the program and are rejected). -/
def parseNumber : List Char → Option (Int × List Char)
  | [] => none
  | c :: cs =>
    if c == '-' then
      match cs with
      | d :: _ =>
        if d.isDigit then
          let p := parseDigitsAux 0 cs
          some (-(p.1 : Int), p.2)
        else none
      | [] => none
    else if c.isDigit then
      let p := parseDigitsAux 0 (c :: cs)
      some ((p.1 : Int), p.2)
    else none

/-- Match an expected literal suffix such as `rue` of `true`. -/
def expectLit : List Char → List Char → Option (List Char)
  | [], rest => some rest
  | _, [] => none
  | e :: es, c :: cs => if e == c then expectLit es cs else none

mutual

/-- Parse one JSON value, fuel-bounded recursive descent. -/
def parseVal : Nat → List Char → Option (Json × List Char)
  | 0, _ => none
  | fuel + 1, cs =>
    match skipWs cs with
    | [] => none
    | c :: rest =>
      if c == '"' then
        match parseStrBody rest with
        | some (s, r) => some (Json.str s, r)
        | none => none
      else if c == '\x7b' then parseFieldSeq fuel (skipWs rest)
      else if c == '[' then parseElemSeq fuel (skipWs rest)
      else if c == 't' then
        match expectLit ['r', 'u', 'e'] rest with
        | some r => some (Json.bool true, r)
        | none => none
      else if c == 'f' then
        match expectLit ['a', 'l', 's', 'e'] rest with
        | some r => some (Json.bool false, r)
        | none => none
      else if c == 'n' then
        match expectLit ['u', 'l', 'l'] rest with
        | some r => some (Json.null, r)
        | none => none
      else
        match parseNumber (c :: rest) with
        | some (n, r) => some (Json.num n, r)
        | none => none

/-- Parse the inside of a JSON object, after the opening brace (leading
whitespace already skipped). -/
def parseFieldSeq : Nat → List Char → Option (Json × List Char)
  | 0, _ => none
  | fuel + 1, cs =>
    match cs with
    | '\x7d' :: rest => some (Json.obj [], rest)
    | '"' :: rest =>
      match parseStrBody rest with
      | some (k, r1) =>
        match skipWs r1 with
        | ':' :: r2 =>
          match parseVal fuel r2 with
          | some (v, r3) =>
            match skipWs r3 with
            | ',' :: r4 =>
              match parseFieldSeq fuel (skipWs r4) with
              | some (Json.obj (f :: fs), r5) =>
                  some (Json.obj ((k, v) :: f :: fs), r5)
              | _ => none
            | '\x7d' :: r4 => some (Json.obj [(k, v)], r4)
            | _ => none
          | none => none
        | _ => none
      | none => none
    | _ => none

/-- Parse the inside of a JSON array, after the opening bracket (leading
whitespace already skipped). -/
def parseElemSeq : Nat → List Char → Option (Json × List Char)
  | 0, _ => none
  | fuel + 1, cs =>
    match cs with
    | ']' :: rest => some (Json.arr [], rest)
    | _ =>
      match parseVal fuel cs with
      | some (v, r1) =>
        match skipWs r1 with
        | ',' :: r2 =>
          match parseElemSeq fuel (skipWs r2) with
          | some (Json.arr (w :: vs), r3) => some (Json.arr (v :: w :: vs), r3)
          | _ => none
        | ']' :: r2 => some (Json.arr [v], r2)
        | _ => none
      | none => none

end

/-- Model of `JSON.parse`: succeeds iff the whole string is one JSON value
surrounded by optional whitespace (trailing non-whitespace input, e.g. a
second JSON value, throws in JavaScript and yields `none` here). -/
def parseJson (s : String) : Option Json :=
  match parseVal (s.length + 4) s.data with
  | some (j, rest) => if skipWs rest = [] then some j else none
  | none => none

mutual

/-- Model of `JSON.stringify` on JSON values (compact form, no spaces). -/
def stringifyJson : Json → String
  | Json.null => "null"
  | Json.bool true => "true"
  | Json.bool false => "false"
  | Json.num n => toString n
  | Json.str s => "\"" ++ s ++ "\""
  | Json.arr xs => "[" ++ stringifyElems xs ++ "]"
  | Json.obj fs => "\x7b" ++ stringifyFields fs ++ "\x7d"

/-- Comma-separated array elements. -/
def stringifyElems : List Json → String
  | [] => ""
  | [x] => stringifyJson x
  | x :: y :: xs => stringifyJson x ++ "," ++ stringifyElems (y :: xs)

/-- Comma-separated object fields. -/
def stringifyFields : List (String × Json) → String
  | [] => ""
  | [(k, v)] => "\"" ++ k ++ "\":" ++ stringifyJson v
  | (k, v) :: f :: fs =>
      "\"" ++ k ++ "\":" ++ stringifyJson v ++ "," ++ stringifyFields (f :: fs)

end

/-- Field lookup on a JSON object (`undefined`, i.e. `none`, otherwise). -/
def getField : Json → String → Option Json
  | Json.obj fs, k => (fs.find? (fun p => p.1 == k)).map (fun p => p.2)
  | _, _ => none

/-- A `ProtocolMessage` as the source declares it: `type` is one of the five
tag strings on well-formed traffic (arbitrary after a cast from `JSON.parse`),
`payload` and `id` are optional (`undefined` fields are omitted by
`JSON.stringify`), `timestamp` is a number. -/
structure ProtocolMessage where
  mtype : String
  payload : Option Json
  timestamp : Int
  id : Option String

/-- Read a parsed JSON value as a `ProtocolMessage`, the way the source's
unchecked cast does: a missing or non-string `type` behaves in the dispatch
switch exactly like an unknown tag, modelled by the tag `"undefined"`; a
missing or non-number `timestamp` is never read by the program, modelled
as `0`. -/
def jsonToMessage (j : Json) : ProtocolMessage where
  mtype :=
    match getField j "type" with
    | some (Json.str s) => s
    | _ => "undefined"
  payload := getField j "payload"
  timestamp :=
    match getField j "timestamp" with
    | some (Json.num n) => n
    | _ => 0
  id :=
    match getField j "id" with
    | some (Json.str s) => some s
    | _ => none

/-- The JSON object a `ProtocolMessage` serializes to, with the field order
of the source's object literals (`type`, `payload`, `timestamp`, `id`) and
`undefined` optionals omitted, as `JSON.stringify` omits them. -/
def messageToJson (m : ProtocolMessage) : Json :=
  Json.obj
    ([("type", Json.str m.mtype)] ++
     (match m.payload with
      | some p => [("payload", p)]
      | none => []) ++
     [("timestamp", Json.num m.timestamp)] ++
     (match m.id with
      | some i => [("id", Json.str i)]
      | none => []))

/-- `JSON.stringify(message) + "\n"`, the wire encoding used by
`sendMessage` on both sides. -/
def encodeMessage (m : ProtocolMessage) : String :=
  stringifyJson (messageToJson m) ++ "\n"

/-- The server's inbound decode: `JSON.parse(data.toString())` applied to the
whole received chunk, then the unchecked cast to `ProtocolMessage`.  Note
that the chunk is parsed as one JSON value; there is no splitting of the
chunk into newline-terminated lines. -/
def decodeChunk (s : String) : Option ProtocolMessage :=
  (parseJson s).map jsonToMessage

/-- Model of `String.prototype.trim`: strip leading and trailing
whitespace. -/
def strTrim (s : String) : String :=
  String.mk (List.reverse (skipWs (List.reverse (skipWs s.data))))

/-- The client's inbound decode: `JSON.parse(data.toString().trim())`. -/
def decodeChunkClient (s : String) : Option ProtocolMessage :=
  (parseJson (strTrim s)).map jsonToMessage

/-! ## Server state (`TCPServer` in `src/index.ts`)

Mutable `ConnectionInfo` objects are stored in a heap addressed by `ObjId`;
the `connections : Map<string, ConnectionInfo>` stores object ids, and the
timer closures capture the object id of the connection they were created
for (the JavaScript closures capture the object itself, which stays reachable
from the closure even after the map entry is deleted). -/

/-- Heap address of a `ConnectionInfo` object. -/
abbrev ObjId := Nat

/-- Identity of a socket (the transport handle). -/
abbrev SocketId := Nat

/-- `ConnectionInfo` (src/index.ts:10-15): the only timer handle stored in
the record is `keepAliveInterval`, the keepalive-probe interval; the source
stores no handle for the timeout-check interval. -/
structure ConnectionInfo where
  socket : SocketId
  lastActivity : Int
  keepAliveInterval : Option Nat
  isAlive : Bool
deriving DecidableEq, Repr

/-- What a scheduled interval does when it fires, together with the state its
closure captured. -/
inductive TimerKind where
  /-- the keepalive-probe interval of `startKeepAlive`; captures the
  `ConnectionInfo` object -/
  | probe (obj : ObjId) : TimerKind
  /-- the timeout-check interval of `startKeepAlive`; captures the
  `ConnectionInfo` object and the connection id string -/
  | timeoutCheck (obj : ObjId) (cid : String) : TimerKind
deriving DecidableEq, Repr

/-- An active (scheduled and not yet cleared) interval. -/
structure Timer where
  tid : Nat
  kind : TimerKind
  period : Int
deriving DecidableEq, Repr

/-- The whole observable state of a `TCPServer`, including logs of socket
writes and socket closes so that "exactly one reply" and "exactly one close"
can be stated. -/
structure ServerState where
  /-- the `connections` map, insertion-ordered as a JavaScript `Map` -/
  connections : List (String × ObjId)
  /-- heap of `ConnectionInfo` objects -/
  objects : List (ObjId × ConnectionInfo)
  /-- intervals that are scheduled and not cleared -/
  timers : List Timer
  /-- sockets on which `destroy()` has been called, in call order -/
  destroyed : List SocketId
  /-- sockets on which `end()` has been called, in call order -/
  ended : List SocketId
  /-- every `sendMessage` write, in order: target socket and message -/
  sent : List (SocketId × ProtocolMessage)
  /-- allocator for heap addresses -/
  nextObj : ObjId
  /-- allocator for interval ids -/
  nextTimer : Nat
  /-- constructor argument `keepAliveTimeout` (ms) -/
  keepAliveTimeout : Int
  /-- constructor argument `keepAliveInterval` (ms) -/
  keepAliveIntervalMs : Int

/-- `Map.prototype.get`. -/
def mapGet (m : List (String × ObjId)) (k : String) : Option ObjId :=
  (m.find? (fun p => p.1 == k)).map (fun p => p.2)

/-- `Map.prototype.set`: replaces in place when the key is present,
appends otherwise. -/
def mapSet (m : List (String × ObjId)) (k : String) (v : ObjId) :
    List (String × ObjId) :=
  if m.any (fun p => p.1 == k) then
    m.map (fun p => if p.1 == k then (k, v) else p)
  else m ++ [(k, v)]

/-- `Map.prototype.delete`. -/
def mapDelete (m : List (String × ObjId)) (k : String) :
    List (String × ObjId) :=
  m.filter (fun p => !(p.1 == k))

/-- Dereference a heap address. -/
def heapGet (h : List (ObjId × ConnectionInfo)) (o : ObjId) :
    Option ConnectionInfo :=
  (h.find? (fun p => p.1 == o)).map (fun p => p.2)

/-- Mutate the object at a heap address. -/
def heapSet (h : List (ObjId × ConnectionInfo)) (o : ObjId)
    (c : ConnectionInfo) : List (ObjId × ConnectionInfo) :=
  h.map (fun p => if p.1 == o then (o, c) else p)

/-- `TCPServer.sendMessage` (src/index.ts:139-141): a single
`socket.write(JSON.stringify(message) + "\n")`; touches nothing else. -/
def serverSend (s : ServerState) (sock : SocketId) (m : ProtocolMessage) :
    ServerState :=
  { s with sent := s.sent ++ [(sock, m)] }

/-- `clearInterval`: the timer stops being active and never fires again. -/
def clearTimer (s : ServerState) (tid : Nat) : ServerState :=
  { s with timers := s.timers.filter (fun t => !(t.tid == tid)) }

/-- `TCPServer.startKeepAlive` (src/index.ts:143-167): looks the connection
up (early return when absent), schedules the keepalive-probe interval and
stores its handle in `connection.keepAliveInterval`, then schedules the
timeout-check interval with period `keepAliveTimeout` — whose handle the
source discards (the bare `setInterval(...)` on line 159 is not assigned to
anything). -/
def startKeepAlive (s : ServerState) (cid : String) : ServerState :=
  match mapGet s.connections cid with
  | none => s
  | some obj =>
    match heapGet s.objects obj with
    | none => s
    | some c =>
      let probeId := s.nextTimer
      let checkId := s.nextTimer + 1
      { s with
        objects := heapSet s.objects obj
          { c with keepAliveInterval := some probeId }
        timers := s.timers ++
          [⟨probeId, TimerKind.probe obj, s.keepAliveIntervalMs⟩,
           ⟨checkId, TimerKind.timeoutCheck obj cid, s.keepAliveTimeout⟩]
        nextTimer := s.nextTimer + 2 }

/-- The server's `connection` event handler (src/index.ts:33-46): builds a
fresh `ConnectionInfo` with `lastActivity = Date.now()` and `isAlive = true`,
stores it in the map under the connection id (a plain `Map.set`, with no
presence check), and calls `startKeepAlive`. -/
def handleConnection (s : ServerState) (cid : String) (sock : SocketId)
    (now : Int) : ServerState :=
  let obj := s.nextObj
  let info : ConnectionInfo :=
    { socket := sock, lastActivity := now, keepAliveInterval := none,
      isAlive := true }
  let s1 :=
    { s with
      objects := s.objects ++ [(obj, info)]
      connections := mapSet s.connections cid obj
      nextObj := obj + 1 }
  startKeepAlive s1 cid

/-- `TCPServer.handleMessage` (src/index.ts:84-137): early return when the
connection id is not in the map; otherwise first sets
`lastActivity = Date.now()` and `isAlive = true` on the connection object,
then switches on `message.type` (`data` echo, `ping`→`pong`,
`keepalive` acknowledgement, `close` reply + `socket.end()`, default: log
only). -/
def handleMessage (s : ServerState) (m : ProtocolMessage) (cid : String)
    (now : Int) : ServerState :=
  match mapGet s.connections cid with
  | none => s
  | some obj =>
    match heapGet s.objects obj with
    | none => s
    | some c =>
      let c1 := { c with lastActivity := now, isAlive := true }
      let s1 := { s with objects := heapSet s.objects obj c1 }
      if m.mtype == "data" then
        serverSend s1 c1.socket
          { mtype := "data", payload := m.payload, timestamp := now,
            id := m.id }
      else if m.mtype == "ping" then
        serverSend s1 c1.socket
          { mtype := "pong",
            payload := some (Json.obj [("message", Json.str "pong")]),
            timestamp := now, id := m.id }
      else if m.mtype == "keepalive" then
        serverSend s1 c1.socket
          { mtype := "keepalive",
            payload := some (Json.obj [("status", Json.str "alive")]),
            timestamp := now, id := m.id }
      else if m.mtype == "close" then
        let s2 := serverSend s1 c1.socket
          { mtype := "close",
            payload := some (Json.obj
              [("message", Json.str "Connection closed by client")]),
            timestamp := now, id := none }
        { s2 with ended := s2.ended ++ [c1.socket] }
      else s1

/-- The error reply the server sends for an unparseable chunk
(src/index.ts:60-64). -/
def invalidFormatReply (now : Int) : ProtocolMessage :=
  { mtype := "data",
    payload := some (Json.obj
      [("error", Json.str "Invalid message format")]),
    timestamp := now, id := none }

/-- The server's socket `data` event handler (src/index.ts:54-66):
`JSON.parse` on the whole chunk; on success dispatch through
`handleMessage`, on a parse exception send one `Invalid message format`
reply on the socket captured by the closure and touch nothing else. -/
def serverOnData (s : ServerState) (sock : SocketId) (cid : String)
    (chunk : String) (now : Int) : ServerState :=
  match decodeChunk chunk with
  | some m => handleMessage s m cid now
  | none => serverSend s sock (invalidFormatReply now)

/-- `TCPServer.cleanupConnection` (src/index.ts:169-177): when the id is in
the map, clear the `keepAliveInterval` handle if set and delete the map
entry.  Nothing else: the timeout-check interval has no stored handle and is
not cleared, and no `destroy()`/`end()` is issued here. -/
def cleanupConnection (s : ServerState) (cid : String) : ServerState :=
  match mapGet s.connections cid with
  | none => s
  | some obj =>
    match heapGet s.objects obj with
    | none => s
    | some c =>
      let s1 :=
        match c.keepAliveInterval with
        | some tid => clearTimer s tid
        | none => s
      { s1 with connections := mapDelete s1.connections cid }

/-- A scheduled interval fires at time `now`.  A cleared (or never existing)
timer id is a no-op.  The probe body (src/index.ts:148-156) reads
`connection.isAlive` from the captured object and emits a `keepalive`
message; the timeout-check body (src/index.ts:159-166) compares
`Date.now() - connection.lastActivity` against `keepAliveTimeout` and, past
the threshold, calls `connection.socket.destroy()` then
`cleanupConnection(connectionId)`. -/
def fireTimer (s : ServerState) (tid : Nat) (now : Int) : ServerState :=
  match s.timers.find? (fun t => t.tid == tid) with
  | none => s
  | some t =>
    match t.kind with
    | TimerKind.probe obj =>
      match heapGet s.objects obj with
      | none => s
      | some c =>
        if c.isAlive then
          serverSend s c.socket
            { mtype := "keepalive",
              payload := some (Json.obj
                [("message", Json.str "keepalive")]),
              timestamp := now, id := none }
        else s
    | TimerKind.timeoutCheck obj cid =>
      match heapGet s.objects obj with
      | none => s
      | some c =>
        if now - c.lastActivity > s.keepAliveTimeout then
          cleanupConnection
            { s with destroyed := s.destroyed ++ [c.socket] } cid
        else s

/-- A freshly constructed `TCPServer` with the given keepalive
configuration: empty registry, no timers, empty logs. -/
def initServer (timeoutMs intervalMs : Int) : ServerState :=
  { connections := [], objects := [], timers := [], destroyed := [],
    ended := [], sent := [], nextObj := 0, nextTimer := 0,
    keepAliveTimeout := timeoutMs, keepAliveIntervalMs := intervalMs }

/-! ## Client state (`TCPClient` in `src/unnamed/part_000`)

Only the parts of the client that the claims are about are embedded: the
single connection's activity/connectivity state, the outbound write log, and
the scheduled `client.end()` of `disconnect`. -/

/-- The observable state of a `TCPClient` relevant to its message handling:
`lastActivity`, `isConnected`, the `messageId` counter, the log of
`client.write` calls, and whether `disconnect` has scheduled the deferred
`client.end()`. -/
structure ClientState where
  lastActivity : Int
  isConnected : Bool
  messageId : Nat
  sent : List ProtocolMessage
  endScheduled : Bool

/-- `TCPClient.sendMessage` (src/unnamed/part_000:100-108): when not
connected, log an error and return; otherwise write the encoded message and
then set `lastActivity = Date.now()`. -/
def clientSend (c : ClientState) (m : ProtocolMessage) (now : Int) :
    ClientState :=
  if c.isConnected then
    { c with sent := c.sent ++ [m], lastActivity := now }
  else c

/-- `TCPClient.disconnect` (src/unnamed/part_000:166-176): send a `close`
message, then schedule `client.end()` 100 ms later. -/
def clientDisconnect (c : ClientState) (now : Int) : ClientState :=
  let c1 := clientSend c
    { mtype := "close",
      payload := some (Json.obj
        [("message", Json.str "Client disconnecting")]),
      timestamp := now, id := none } now
  { c1 with endScheduled := true }

/-- `TCPClient.handleMessage` (src/unnamed/part_000:74-98): `data`, `pong`
and `keepalive` only log; `close` calls `disconnect()`; an unknown tag logs
a warning. -/
def clientHandleMessage (c : ClientState) (m : ProtocolMessage)
    (now : Int) : ClientState :=
  if m.mtype == "data" then c
  else if m.mtype == "pong" then c
  else if m.mtype == "keepalive" then c
  else if m.mtype == "close" then clientDisconnect c now
  else c

/-- The client's socket `data` event handler (src/unnamed/part_000:45-54):
first `lastActivity = Date.now()` (before any parsing), then
`JSON.parse(data.toString().trim())`; on success dispatch through
`handleMessage`, on a parse exception only log — no reply, no state
change, the connection stays open. -/
def clientOnData (c : ClientState) (chunk : String) (now : Int) :
    ClientState :=
  let c1 := { c with lastActivity := now }
  match decodeChunkClient chunk with
  | some m => clientHandleMessage c1 m now
  | none => c1

/-- A `TCPClient` just after its `connect` event fired at time `now`
(src/unnamed/part_000:38-43): connected, `lastActivity = Date.now()`. -/
def connectedClient (now : Int) : ClientState :=
  { lastActivity := now, isConnected := true, messageId := 0, sent := [],
    endScheduled := false }

/-! ## The canonical registered connection

A server constructed with timeout `T` and probe interval `I` that has
accepted one connection `cid` with socket `sock` at time `t0`. -/

/-- The server state right after the `connection` event for the first
accepted connection. -/
def regState (T I t0 : Int) (cid : String) (sock : SocketId) : ServerState :=
  handleConnection (initServer T I) cid sock t0

/-- Explicit form of `regState`: the registry holds the one connection,
its object carries `lastActivity = t0`, `isAlive = true` and the stored
probe-timer handle `0`; two intervals are active — the probe (id `0`,
period `I`) and the timeout check (id `1`, period `T`). -/
theorem regState_eq (T I t0 : Int) (cid : String) (sock : SocketId) :
    regState T I t0 cid sock =
      { connections := [(cid, 0)]
        objects := [(0, ⟨sock, t0, some 0, true⟩)]
        timers := [⟨0, TimerKind.probe 0, I⟩,
                   ⟨1, TimerKind.timeoutCheck 0 cid, T⟩]
        destroyed := [], ended := [], sent := []
        nextObj := 1, nextTimer := 2
        keepAliveTimeout := T, keepAliveIntervalMs := I } := by
  simp [regState, handleConnection, startKeepAlive, initServer, mapSet,
    mapGet, heapGet, heapSet, List.find?]

/-- Explicit form of a teardown of the canonical registered connection:
the map entry is gone and the probe timer cleared, but the timeout-check
interval is still scheduled, and no socket has been destroyed or ended. -/
theorem cleanup_regState_eq (T I t0 : Int) (cid : String) (sock : SocketId) :
    cleanupConnection (regState T I t0 cid sock) cid =
      { connections := []
        objects := [(0, ⟨sock, t0, some 0, true⟩)]
        timers := [⟨1, TimerKind.timeoutCheck 0 cid, T⟩]
        destroyed := [], ended := [], sent := []
        nextObj := 1, nextTimer := 2
        keepAliveTimeout := T, keepAliveIntervalMs := I } := by
  rw [regState_eq]
  simp [cleanupConnection, mapGet, mapDelete, heapGet, clearTimer,
    List.find?, List.filter]

/-! ## The claims -/

/-- Claim C10: for every decoded message whose connection identifier is not
present in the registry, the server's dispatcher is a complete no-op — it
sends no reply, mutates no connection state and leaves the registry
unchanged (the state is returned exactly as it was). -/
theorem c10_unknown_connection_noop (s : ServerState) (m : ProtocolMessage)
    (cid : String) (now : Int) (h : mapGet s.connections cid = none) :
    handleMessage s m cid now = s := by
  unfold handleMessage
  rw [h]

/-- Witness for C10 at a concrete input: a fresh server has no connection
named c, and dispatching a ping for it changes nothing. -/
theorem c10_unknown_connection_noop_witness :
    handleMessage (initServer 30000 10000)
      ⟨"ping", none, 1, some "p1"⟩ "c" 5 = initServer 30000 10000 :=
  c10_unknown_connection_noop (initServer 30000 10000)
    ⟨"ping", none, 1, some "p1"⟩ "c" 5 (by rfl)

/-- Claim C6: for every well-formed data message received from a registered
connection, the server sends exactly one reply — appended to the send log,
addressed to that connection's socket — whose type is data and whose
payload and id are identical to those of the received message; the only
other state change is the activity update on the connection object. -/
theorem c6_data_echo (s : ServerState) (m : ProtocolMessage) (cid : String)
    (obj : ObjId) (c : ConnectionInfo) (now : Int)
    (hc : mapGet s.connections cid = some obj)
    (ho : heapGet s.objects obj = some c)
    (hm : m.mtype = "data") :
    handleMessage s m cid now =
      { s with
        objects := heapSet s.objects obj
          { c with lastActivity := now, isAlive := true }
        sent := s.sent ++
          [(c.socket,
            { mtype := "data", payload := m.payload, timestamp := now,
              id := m.id })] } := by
  unfold handleMessage
  simp only [hc, ho]
  simp [hm, serverSend]

/-- Witness for C6 at a concrete input: the registered connection c receives
a data message with a payload object and id d1, and the reply carries the
same payload and id. -/
theorem c6_data_echo_witness :
    handleMessage (regState 30000 10000 0 "c" 0)
      ⟨"data", some (Json.obj [("x", Json.num 1)]), 2, some "d1"⟩ "c" 9 =
      { regState 30000 10000 0 "c" 0 with
        objects := heapSet (regState 30000 10000 0 "c" 0).objects 0
          ⟨0, 9, some 0, true⟩
        sent := (regState 30000 10000 0 "c" 0).sent ++
          [(0, ⟨"data", some (Json.obj [("x", Json.num 1)]), 9,
                some "d1"⟩)] } :=
  c6_data_echo (regState 30000 10000 0 "c" 0)
    ⟨"data", some (Json.obj [("x", Json.num 1)]), 2, some "d1"⟩ "c"
    0 ⟨0, 0, some 0, true⟩ 9 (by rfl) (by rfl) rfl

/-- Claim C7: for every ping message received from a registered connection,
the server sends exactly one pong reply carrying the same id as the ping
and the payload object with field message set to the string pong. -/
theorem c7_ping_pong (s : ServerState) (m : ProtocolMessage) (cid : String)
    (obj : ObjId) (c : ConnectionInfo) (now : Int)
    (hc : mapGet s.connections cid = some obj)
    (ho : heapGet s.objects obj = some c)
    (hm : m.mtype = "ping") :
    handleMessage s m cid now =
      { s with
        objects := heapSet s.objects obj
          { c with lastActivity := now, isAlive := true }
        sent := s.sent ++
          [(c.socket,
            { mtype := "pong",
              payload := some (Json.obj [("message", Json.str "pong")]),
              timestamp := now, id := m.id })] } := by
  unfold handleMessage
  simp only [hc, ho]
  simp [hm, serverSend]

/-- Witness for C7 at a concrete input: ping with id p1 from the registered
connection c yields exactly one pong with id p1 and payload message pong. -/
theorem c7_ping_pong_witness :
    handleMessage (regState 30000 10000 0 "c" 0)
      ⟨"ping", none, 3, some "p1"⟩ "c" 9 =
      { regState 30000 10000 0 "c" 0 with
        objects := heapSet (regState 30000 10000 0 "c" 0).objects 0
          ⟨0, 9, some 0, true⟩
        sent := (regState 30000 10000 0 "c" 0).sent ++
          [(0, ⟨"pong", some (Json.obj [("message", Json.str "pong")]), 9,
                some "p1"⟩)] } :=
  c7_ping_pong (regState 30000 10000 0 "c" 0)
    ⟨"ping", none, 3, some "p1"⟩ "c" 0 ⟨0, 0, some 0, true⟩ 9
    (by rfl) (by rfl) rfl

/-- Claim C1 (refuting evaluation): registry teardown of the canonical
registered connection removes the entry and cancels the probe timer, but the
timeout-check interval — whose handle the source never stores — stays
scheduled, teardown closes no socket (destroy and end logs stay empty), and
the leaked timeout interval still fires after teardown, destroying the
socket of the already-removed connection. -/
theorem c1_teardown_leaks_timeout_timer (T I t0 : Int) (cid : String)
    (sock : SocketId) (hT : 0 < T) :
    mapGet (cleanupConnection (regState T I t0 cid sock) cid).connections
      cid = none ∧
    (cleanupConnection (regState T I t0 cid sock) cid).timers =
      [⟨1, TimerKind.timeoutCheck 0 cid, T⟩] ∧
    (cleanupConnection (regState T I t0 cid sock) cid).destroyed = [] ∧
    (cleanupConnection (regState T I t0 cid sock) cid).ended = [] ∧
    sock ∈ (fireTimer (cleanupConnection (regState T I t0 cid sock) cid) 1
      (t0 + 2 * T)).destroyed := by
  rw [cleanup_regState_eq]
  refine ⟨by simp [mapGet], rfl, rfl, rfl, ?_⟩
  have hgt : T < 2 * T := by omega
  simp [fireTimer, heapGet, cleanupConnection, mapGet, hgt, List.find?]

/-- Witness for C1 with the default configuration: timeout 30000 ms, probe
interval 10000 ms, registration at time 0. -/
theorem c1_teardown_leaks_timeout_timer_witness :
    mapGet (cleanupConnection (regState 30000 10000 0 "c" 0) "c").connections
      "c" = none ∧
    (cleanupConnection (regState 30000 10000 0 "c" 0) "c").timers =
      [⟨1, TimerKind.timeoutCheck 0 "c", 30000⟩] ∧
    (cleanupConnection (regState 30000 10000 0 "c" 0) "c").destroyed = [] ∧
    (cleanupConnection (regState 30000 10000 0 "c" 0) "c").ended = [] ∧
    0 ∈ (fireTimer (cleanupConnection (regState 30000 10000 0 "c" 0) "c") 1
      (0 + 2 * 30000)).destroyed :=
  c1_teardown_leaks_timeout_timer 30000 10000 0 "c" 0 (by decide)

/-- Claim C3 counterexample: invoking teardown twice for the registered
connection c results in zero closes of the transport (no destroy and no end
is performed by teardown at all), not exactly one; and the timer pair is not
cancelled as a pair — after teardown the timeout-check interval is still
scheduled. -/
theorem c3_teardown_zero_closes_cex :
    (cleanupConnection (cleanupConnection (regState 30000 10000 0 "c" 0)
      "c") "c").destroyed = [] ∧
    (cleanupConnection (cleanupConnection (regState 30000 10000 0 "c" 0)
      "c") "c").ended = [] ∧
    (cleanupConnection (regState 30000 10000 0 "c" 0) "c").timers =
      [⟨1, TimerKind.timeoutCheck 0 "c", 30000⟩] :=
  ⟨rfl, rfl, rfl⟩

/-- Claim C3 as amended: teardown is idempotent — on an identifier absent
from the registry it is a no-op, and a second teardown for the same
identifier changes nothing over the first, so the probe timer is cancelled
exactly once, never twice; but teardown itself performs no transport close,
and of the timer pair only the stored probe handle is cancelled. -/
theorem c3_teardown_idempotent_amended (s : ServerState) (cid0 : String)
    (h : mapGet s.connections cid0 = none) (T I t0 : Int) (cid : String)
    (sock : SocketId) :
    cleanupConnection s cid0 = s ∧
    cleanupConnection (cleanupConnection (regState T I t0 cid sock) cid) cid
      = cleanupConnection (regState T I t0 cid sock) cid ∧
    (cleanupConnection (regState T I t0 cid sock) cid).timers =
      [⟨1, TimerKind.timeoutCheck 0 cid, T⟩] ∧
    (cleanupConnection (regState T I t0 cid sock) cid).destroyed = [] ∧
    (cleanupConnection (regState T I t0 cid sock) cid).ended = [] := by
  refine ⟨?_, ?_, ?_, ?_, ?_⟩
  · unfold cleanupConnection
    simp only [h]
  · rw [cleanup_regState_eq]
    simp [cleanupConnection, mapGet]
  · rw [cleanup_regState_eq]
  · rw [cleanup_regState_eq]
  · rw [cleanup_regState_eq]

/-- Witness for C3: a fresh server has no entry named d, and the concrete
double teardown of the registered connection c. -/
theorem c3_teardown_idempotent_amended_witness :
    cleanupConnection (initServer 30000 10000) "d" = initServer 30000 10000 ∧
    cleanupConnection (cleanupConnection (regState 30000 10000 0 "c" 0) "c")
      "c" = cleanupConnection (regState 30000 10000 0 "c" 0) "c" ∧
    (cleanupConnection (regState 30000 10000 0 "c" 0) "c").timers =
      [⟨1, TimerKind.timeoutCheck 0 "c", 30000⟩] ∧
    (cleanupConnection (regState 30000 10000 0 "c" 0) "c").destroyed = [] ∧
    (cleanupConnection (regState 30000 10000 0 "c" 0) "c").ended = [] :=
  c3_teardown_idempotent_amended (initServer 30000 10000) "d" (by rfl)
    30000 10000 0 "c" 0

/-- Claim C2: for the canonical registered connection with zero inbound
activity, in any state agreeing with the registered state on the registry,
the heap and the timers (probe firings preserve exactly these, as the first
conjunct proves), the timeout check at its first tick (silence exactly the
timeout, not exceeding it) closes nothing, and at its second tick (silence
twice the timeout) destroys the transport and removes the entry; the
detection instant is within twice the timeout of the last activity. -/
theorem c2_inactivity_timeout_detection (T I t0 : Int) (cid : String)
    (sock : SocketId) (s' : ServerState) (hT : 0 < T)
    (hc : s'.connections = (regState T I t0 cid sock).connections)
    (ho : s'.objects = (regState T I t0 cid sock).objects)
    (ht : s'.timers = (regState T I t0 cid sock).timers)
    (hk : s'.keepAliveTimeout = T) :
    (∀ now : Int,
      (fireTimer s' 0 now).connections = s'.connections ∧
      (fireTimer s' 0 now).objects = s'.objects ∧
      (fireTimer s' 0 now).timers = s'.timers ∧
      (fireTimer s' 0 now).destroyed = s'.destroyed ∧
      (fireTimer s' 0 now).keepAliveTimeout = s'.keepAliveTimeout) ∧
    fireTimer s' 1 (t0 + T) = s' ∧
    sock ∈ (fireTimer s' 1 (t0 + 2 * T)).destroyed ∧
    mapGet (fireTimer s' 1 (t0 + 2 * T)).connections cid = none ∧
    t0 + 2 * T - t0 ≤ 2 * T := by
  rw [regState_eq] at hc ho ht
  refine ⟨?_, ?_, ?_, ?_, by omega⟩
  · intro now
    simp [fireTimer, ht, ho, heapGet, serverSend, List.find?]
  · have hle : ¬ (t0 + T - t0 > T) := by omega
    simp [fireTimer, ht, ho, hk, heapGet, List.find?, hle]
  all_goals {
    have hgt : T < 2 * T := by omega
    simp [fireTimer, ht, ho, hk, hc, heapGet, cleanupConnection, mapGet,
      mapDelete, clearTimer, List.find?, hgt] }

/-- Witness for C2 with the default configuration, instantiating the
agreeing state with the registered state itself. -/
theorem c2_inactivity_timeout_detection_witness :
    fireTimer (regState 30000 10000 0 "c" 0) 1 (0 + 30000) =
      regState 30000 10000 0 "c" 0 ∧
    0 ∈ (fireTimer (regState 30000 10000 0 "c" 0) 1
      (0 + 2 * 30000)).destroyed ∧
    mapGet (fireTimer (regState 30000 10000 0 "c" 0) 1
      (0 + 2 * 30000)).connections "c" = none ∧
    (0 : Int) + 2 * 30000 - 0 ≤ 2 * 30000 :=
  (c2_inactivity_timeout_detection 30000 10000 0 "c" 0
    (regState 30000 10000 0 "c" 0) (by decide) rfl rfl rfl rfl).2

/-- Claim C5 counterexample: with the identifier c already present in the
registry, a second register call for c does not fail — it completes,
overwriting the registry entry with a fresh state (the new object id 1,
socket 1, last activity 5), the opposite of the claimed failure. -/
theorem c5_register_overwrites_cex :
    mapGet (regState 30000 10000 0 "c" 0).connections "c" = some 0 ∧
    (handleConnection (regState 30000 10000 0 "c" 0) "c" 1 5).connections =
      [("c", 1)] ∧
    heapGet (handleConnection (regState 30000 10000 0 "c" 0) "c" 1 5).objects
      1 = some ⟨1, 5, some 2, true⟩ :=
  ⟨rfl, rfl, rfl⟩

/-- Claim C5 as amended: register creates Connection State with last
activity set to the current time and the alive flag set, starts the liveness
scheduler (the probe interval, handle stored, and the timeout-check
interval) and stores the state keyed by identifier; but when the identifier
is already present, register does not fail: it overwrites the existing
entry with the new state, while the displaced connection's probe timer
remains scheduled. -/
theorem c5_register_amended (T I t0 t1 : Int) (cid : String)
    (sock sock2 : SocketId) :
    mapGet (regState T I t0 cid sock).connections cid = some 0 ∧
    heapGet (regState T I t0 cid sock).objects 0 =
      some ⟨sock, t0, some 0, true⟩ ∧
    (regState T I t0 cid sock).timers =
      [⟨0, TimerKind.probe 0, I⟩, ⟨1, TimerKind.timeoutCheck 0 cid, T⟩] ∧
    (handleConnection (regState T I t0 cid sock) cid sock2 t1).connections =
      [(cid, 1)] ∧
    heapGet (handleConnection (regState T I t0 cid sock) cid sock2
      t1).objects 1 = some ⟨sock2, t1, some 2, true⟩ ∧
    ⟨0, TimerKind.probe 0, I⟩ ∈
      (handleConnection (regState T I t0 cid sock) cid sock2 t1).timers := by
  refine ⟨?_, ?_, ?_, ?_, ?_, ?_⟩
  all_goals rw [regState_eq]
  all_goals simp [handleConnection, startKeepAlive, mapSet, mapGet, heapGet,
    heapSet, List.find?]

/-- Claim C8: a malformed (non-parseable) chunk never closes the connection:
on the server the only state change is exactly one reply — type data, with
the Invalid message format error payload — appended to the send log, the
registry, heap, timers and close logs all unchanged; on the client the only
state change is the activity-timestamp update the data event performs before
parsing — nothing is sent and the connection state is otherwise untouched. -/
theorem c8_malformed_input_recoverable (s : ServerState) (sock : SocketId)
    (cid : String) (chunk : String) (now : Int) (c : ClientState)
    (chunkC : String) (nowC : Int) (h : decodeChunk chunk = none)
    (hC : decodeChunkClient chunkC = none) :
    serverOnData s sock cid chunk now =
      { s with sent := s.sent ++ [(sock, invalidFormatReply now)] } ∧
    clientOnData c chunkC nowC = { c with lastActivity := nowC } := by
  constructor
  · unfold serverOnData
    simp only [h]
    rfl
  · unfold clientOnData
    simp only [hC]

/-- Witness for C8: the chunk hello is not JSON; the server answers it with
the error reply and the client ignores it. -/
theorem c8_malformed_input_recoverable_witness :
    serverOnData (regState 30000 10000 0 "c" 0) 0 "c" "hello" 7 =
      { regState 30000 10000 0 "c" 0 with
        sent := (regState 30000 10000 0 "c" 0).sent ++
          [(0, invalidFormatReply 7)] } ∧
    clientOnData (connectedClient 0) "hello" 9 =
      { connectedClient 0 with lastActivity := 9 } :=
  c8_malformed_input_recoverable (regState 30000 10000 0 "c" 0) 0 "c"
    "hello" 7 (connectedClient 0) "hello" 9 (by rfl) (by rfl)

/-- Claim C9 counterexample: an outbound send on the client mutates
last activity — after connecting at time 0, sending a ping at time 7 leaves
the client's last activity at 7, although no inbound message was received,
contradicting the claim that no send operation changes last activity. -/
theorem c9_client_send_mutates_cex :
    (connectedClient 0).lastActivity = 0 ∧
    (clientSend (connectedClient 0) ⟨"ping", none, 7, some "p1"⟩
      7).lastActivity = 7 :=
  ⟨rfl, rfl⟩

/-- Heap lookup at the address just written. -/
theorem heapGet_cons_hit (b : ConnectionInfo)
    (t : List (ObjId × ConnectionInfo)) (o : ObjId) :
    heapGet ((o, b) :: t) o = some b := by
  simp [heapGet, List.find?_cons_of_pos]

/-- Heap lookup skips a cell with a different address. -/
theorem heapGet_cons_miss (a : ObjId) (b : ConnectionInfo)
    (t : List (ObjId × ConnectionInfo)) (o : ObjId) (hp : a ≠ o) :
    heapGet ((a, b) :: t) o = heapGet t o := by
  have hf : ((a, b).1 == o) = false := by simp [hp]
  simp [heapGet, List.find?_cons_of_neg, hf]

/-- Unfolding of `heapSet` on a cons cell. -/
theorem heapSet_cons (a : ObjId) (b : ConnectionInfo)
    (t : List (ObjId × ConnectionInfo)) (o : ObjId) (cc : ConnectionInfo) :
    heapSet ((a, b) :: t) o cc =
      (if a == o then (o, cc) else (a, b)) :: heapSet t o cc := rfl

/-- Updating the object at a present heap address makes the update visible
at that address. -/
theorem heapGet_heapSet_of_mem (h : List (ObjId × ConnectionInfo))
    (o : ObjId) (c cc : ConnectionInfo) (hh : heapGet h o = some c) :
    heapGet (heapSet h o cc) o = some cc := by
  induction h with
  | nil => simp [heapGet] at hh
  | cons p t ih =>
    rcases p with ⟨a, b⟩
    by_cases hp : a = o
    · subst hp
      rw [heapSet_cons]
      simp [heapGet_cons_hit]
    · rw [heapGet_cons_miss a b t o hp] at hh
      rw [heapSet_cons]
      have hf : (a == o) = false := by simp [hp]
      rw [hf]
      simp only [Bool.false_eq_true, if_false]
      rw [heapGet_cons_miss a b _ o hp]
      exact ih hh

/-- Claim C9 as amended: on the server, a send touches only the send log —
the registry, the heap (hence every connection's last activity) and the
timers are unchanged — and the dispatcher is what sets last activity (and
the alive flag) on message receipt; on the client, however, every send in
connected state also updates last activity to the send time. -/
theorem c9_last_activity_mutation_amended (s : ServerState)
    (sock : SocketId) (m : ProtocolMessage) (s2 : ServerState)
    (m2 : ProtocolMessage) (cid : String) (obj : ObjId)
    (c0 : ConnectionInfo) (now : Int) (c : ClientState)
    (mc : ProtocolMessage) (nowC : Int)
    (hc : mapGet s2.connections cid = some obj)
    (ho : heapGet s2.objects obj = some c0)
    (hcon : c.isConnected = true) :
    (serverSend s sock m).connections = s.connections ∧
    (serverSend s sock m).objects = s.objects ∧
    (serverSend s sock m).timers = s.timers ∧
    heapGet (handleMessage s2 m2 cid now).objects obj =
      some { c0 with lastActivity := now, isAlive := true } ∧
    (clientSend c mc nowC).lastActivity = nowC := by
  refine ⟨rfl, rfl, rfl, ?_, ?_⟩
  · unfold handleMessage
    simp only [hc, ho]
    have hg := heapGet_heapSet_of_mem s2.objects obj c0
      { c0 with lastActivity := now, isAlive := true } ho
    split_ifs <;> simp [serverSend, hg]
  · unfold clientSend
    simp [hcon]

/-- Witness for C9: a server send at the registered state changes no
registry or heap component, the dispatcher stamps the activity time, and a
connected client's send stamps its own activity time. -/
theorem c9_last_activity_mutation_amended_witness :
    (serverSend (regState 30000 10000 0 "c" 0) 0
      ⟨"keepalive", none, 3, none⟩).connections =
      (regState 30000 10000 0 "c" 0).connections ∧
    (serverSend (regState 30000 10000 0 "c" 0) 0
      ⟨"keepalive", none, 3, none⟩).objects =
      (regState 30000 10000 0 "c" 0).objects ∧
    (serverSend (regState 30000 10000 0 "c" 0) 0
      ⟨"keepalive", none, 3, none⟩).timers =
      (regState 30000 10000 0 "c" 0).timers ∧
    heapGet (handleMessage (regState 30000 10000 0 "c" 0)
      ⟨"ping", none, 4, some "p2"⟩ "c" 11).objects 0 =
      some ⟨0, 11, some 0, true⟩ ∧
    (clientSend (connectedClient 0) ⟨"data", none, 5, some "d9"⟩
      13).lastActivity = 13 :=
  c9_last_activity_mutation_amended (regState 30000 10000 0 "c" 0) 0
    ⟨"keepalive", none, 3, none⟩ (regState 30000 10000 0 "c" 0)
    ⟨"ping", none, 4, some "p2"⟩ "c" 0 ⟨0, 0, some 0, true⟩ 11
    (connectedClient 0) ⟨"data", none, 5, some "d9"⟩ 13
    (by rfl) (by rfl) rfl

/-- Claim C4 (refuting evaluation): a single newline-terminated encoded
message decodes, but a received chunk holding two newline-terminated JSON
message lines is not decoded as two messages — the whole chunk is fed to one
JSON parse, which rejects it, so the server treats the well-formed pair of
lines as malformed input and answers with the single Invalid message format
reply instead of handling each line. -/
theorem c4_two_line_chunk_rejected :
    decodeChunk (encodeMessage ⟨"ping", none, 1, some "p1"⟩) =
      some ⟨"ping", none, 1, some "p1"⟩ ∧
    decodeChunk (encodeMessage ⟨"ping", none, 1, some "p1"⟩ ++
      encodeMessage ⟨"ping", none, 2, some "p2"⟩) = none ∧
    serverOnData (regState 30000 10000 0 "c" 0) 0 "c"
      (encodeMessage ⟨"ping", none, 1, some "p1"⟩ ++
       encodeMessage ⟨"ping", none, 2, some "p2"⟩) 5 =
      { regState 30000 10000 0 "c" 0 with
        sent := [(0, invalidFormatReply 5)] } :=
  ⟨rfl, rfl, rfl⟩
